import Mathlib

/-!
Shallow embedding of the flamechart trace viewer's layout and viewport engine.

Numbers are modelled as rationals (`ℚ`); the one place where the JS program
can produce a non-finite number (division by an extents size of zero) is
modelled by the explicit `JSNum` type carrying infinities and NaN.
Fallible code paths (an index into a possibly-empty sequence) return `Option`.
-/

namespace Flamechart

/-- An input time-interval event, from the `Measure` type of the source. -/
structure Measure where
  name : String
  startTime : ℚ
  duration : ℚ
deriving DecidableEq, Repr

/-- A measure together with its computed lane, from `RenderableMeasure` of
`calculateTraceLayout`. -/
structure RenderableMeasure where
  measure : Measure
  stackIndex : Nat
deriving DecidableEq, Repr

/-- The extents record returned by `_getExtents`. -/
structure Extents where
  startOffset : ℚ
  endOffset : ℚ
  size : ℚ
deriving DecidableEq, Repr

/-- The per-measure screen-space geometry produced by `_getLayout`. -/
structure Layout where
  width : ℚ
  height : ℚ
  x : ℚ
  y : ℚ
  inView : Bool
deriving DecidableEq, Repr

/-- Constant `BAR_HEIGHT` from the source. -/
def BAR_HEIGHT : ℚ := 16

/-- Constant `BAR_Y_GUTTER` from the source. -/
def BAR_Y_GUTTER : ℚ := 1

/-- Constant `BAR_X_GUTTER` from the source. -/
def BAR_X_GUTTER : ℚ := 1

/-- Constant `PX_PER_MS` from the source. -/
def PX_PER_MS : ℚ := 1

/-- Constant `MIN_ZOOM` (0.2) from the source. -/
def MIN_ZOOM : ℚ := 1 / 5

/-- Constant `MAX_ZOOM` from the source. -/
def MAX_ZOOM : ℚ := 100

/-- Modelled from the spec: the sort order of the stacking layout engine
(`calculateTraceLayout.js` is not part of the available sources).  Spec §4.1:
sort measures by `(startTime asc, duration desc)`. -/
def measureOrder (a b : Measure) : Prop :=
  a.startTime < b.startTime ∨ (a.startTime = b.startTime ∧ b.duration ≤ a.duration)

instance : DecidableRel measureOrder := fun a b => by
  unfold measureOrder; infer_instance

instance : IsTotal Measure measureOrder where
  total a b := by
    rcases lt_trichotomy a.startTime b.startTime with h | h | h
    · exact Or.inl (Or.inl h)
    · rcases le_total b.duration a.duration with hd | hd
      · exact Or.inl (Or.inr ⟨h, hd⟩)
      · exact Or.inr (Or.inr ⟨h.symm, hd⟩)
    · exact Or.inr (Or.inl h)

instance : IsTrans Measure measureOrder where
  trans a b c hab hbc := by
    rcases hab with h | ⟨he, hd⟩ <;> rcases hbc with h' | ⟨he', hd'⟩
    · exact Or.inl (h.trans h')
    · exact Or.inl (by rw [← he']; exact h)
    · exact Or.inl (by rw [he]; exact h')
    · exact Or.inr ⟨he.trans he', hd'.trans hd⟩

/-- Modelled from the spec: the open-lane search of the stacking layout engine
(spec §4.1): find the lowest-indexed open lane whose end time is ≤ the
measure's start time. -/
def findFreeLane (lanes : List ℚ) (start : ℚ) : Option Nat :=
  match lanes with
  | [] => none
  | endTime :: rest =>
    if endTime ≤ start then some 0 else (findFreeLane rest start).map (· + 1)

/-- Modelled from the spec: lane assignment of the stacking layout engine
(spec §4.1).  `lanes` holds, per open lane, the end time of the measure last
assigned to it; a measure goes to the lowest free lane, or opens a new one. -/
def assignLanes : List Measure → List ℚ → List RenderableMeasure
  | [], _ => []
  | m :: rest, lanes =>
    match findFreeLane lanes m.startTime with
    | some i => ⟨m, i⟩ :: assignLanes rest (lanes.set i (m.startTime + m.duration))
    | none => ⟨m, lanes.length⟩ :: assignLanes rest (lanes ++ [m.startTime + m.duration])

/-- Modelled from the spec: `transformTrace` of `calculateTraceLayout.js`
(not among the available sources).  Spec §4.1: sort by
`(startTime asc, duration desc)`, then assign lanes in sorted order; the
output is in that (startTime-ascending) order. -/
def transformTrace (trace : List Measure) : List RenderableMeasure :=
  assignLanes (List.insertionSort measureOrder trace) []

/-- `_getExtents` from the source.  The source reads `renderableTrace[0].measure`
and `renderableTrace[renderableTrace.length - 1].measure` unconditionally;
`none` models the TypeError thrown on an empty renderable sequence. -/
def getExtents (renderableTrace : List RenderableMeasure) : Option Extents :=
  match renderableTrace.head?, renderableTrace.getLast? with
  | some first, some lst =>
    some { startOffset := first.measure.startTime
           endOffset := lst.measure.startTime + lst.measure.duration
           size := lst.measure.startTime + lst.measure.duration - first.measure.startTime }
  | _, _ => none

/-- `_clampCenter` from the source: `Math.max(startOffset, Math.min(endOffset, updated))`. -/
def clampCenter (ext : Extents) (updated : ℚ) : ℚ :=
  max ext.startOffset (min ext.endOffset updated)

/-- `_clampZoom` from the source (constant-bounds version):
`Math.max(MIN_ZOOM, Math.min(MAX_ZOOM, updated))`. -/
def clampZoom (updated : ℚ) : ℚ :=
  max MIN_ZOOM (min MAX_ZOOM updated)

/-- A JS double restricted to the values arising here: a finite rational,
the two infinities, or NaN. -/
inductive JSNum where
  | fin : ℚ → JSNum
  | posInf : JSNum
  | negInf : JSNum
  | nan : JSNum
deriving DecidableEq, Repr

/-- JS division for finite operands (the only operands that occur in
`_getMinZoom`): a nonzero finite value divided by zero yields an infinity,
`0 / 0` yields NaN. -/
def jsDiv : JSNum → JSNum → JSNum
  | .fin a, .fin b =>
    if b = 0 then (if a = 0 then .nan else if 0 < a then .posInf else .negInf)
    else .fin (a / b)
  | _, _ => .nan

/-- JS `Math.min`: NaN-propagating minimum with infinities. -/
def jsMin : JSNum → JSNum → JSNum
  | .nan, _ => .nan
  | _, .nan => .nan
  | .negInf, _ => .negInf
  | _, .negInf => .negInf
  | .posInf, y => y
  | x, .posInf => x
  | .fin a, .fin b => .fin (min a b)

/-- JS `Math.max`: NaN-propagating maximum with infinities. -/
def jsMax : JSNum → JSNum → JSNum
  | .nan, _ => .nan
  | _, .nan => .nan
  | .posInf, _ => .posInf
  | _, .posInf => .posInf
  | .negInf, y => y
  | x, .negInf => x
  | .fin a, .fin b => .fin (max a b)

/-- `_getMinZoom` of `Trace.js`: `viewportWidth / size`, in JS semantics
(no guard against `size == 0`). -/
def getMinZoomJS (viewportWidth size : ℚ) : JSNum :=
  jsDiv (.fin viewportWidth) (.fin size)

/-- `_clampZoom` of `Trace.js` over JS numbers, with the minimum zoom as a
parameter: `Math.max(minZoom, Math.min(MAX_ZOOM, updated))`. -/
def clampZoomJS (minZoom updated : JSNum) : JSNum :=
  jsMax minZoom (jsMin (.fin MAX_ZOOM) updated)

/-- `_clampZoom` of `Trace.js`, with its minimum bound `_getMinZoom()`
inlined, over JS numbers. -/
def clampZoomTraceJS (viewportWidth size : ℚ) (updated : JSNum) : JSNum :=
  clampZoomJS (getMinZoomJS viewportWidth size) updated

/-- `_getMinZoom` of `Trace.js` over rationals (the finite, nonzero-size case). -/
def getMinZoom (viewportWidth size : ℚ) : ℚ :=
  viewportWidth / size

/-- `_clampZoom` of `Trace.js` over rationals, minimum bound as a parameter. -/
def clampZoomTrace (minZoom updated : ℚ) : ℚ :=
  max minZoom (min MAX_ZOOM updated)

/-- The component's interaction state (the fields of the `State` type of the
source that the interaction handlers read or write). -/
structure TraceState where
  center : ℚ
  dragging : Bool
  dragMoved : Bool
  hovered : Option RenderableMeasure
  selection : Option RenderableMeasure
  zoom : ℚ
deriving DecidableEq, Repr

/-- `loadValue` from the source: the parsed stored item when present and not
NaN (modelled as `Option ℚ`), otherwise the default. -/
def loadValue (item : Option ℚ) (defaultVal : ℚ) : ℚ :=
  item.getD defaultVal

/-- The constructor of the `Trace` component: computes extents (crashing on an
empty trace, modelled by `none`), then builds the initial state from stored or
default zoom and center, with no clamping. -/
def mkInitialState (trace : List Measure) (viewportWidth : ℚ)
    (storedZoom storedCenter : Option ℚ) : Option TraceState :=
  match getExtents (transformTrace trace) with
  | none => none
  | some ext =>
    some { center := loadValue storedCenter (ext.startOffset + viewportWidth / PX_PER_MS / 2)
           dragging := false
           dragMoved := false
           hovered := none
           selection := none
           zoom := loadValue storedZoom 1 }

/-- `_getIntersectingMeasure` from the source: the first rendered shape whose
rectangle contains the mouse point. -/
def hitTest (shapes : List (Layout × RenderableMeasure)) (mouseX mouseY : ℚ) :
    Option RenderableMeasure :=
  (shapes.find? fun s =>
    !(decide (mouseX < s.1.x) || decide (s.1.x + s.1.width < mouseX) ||
      decide (mouseY < s.1.y) || decide (s.1.y + s.1.height < mouseY))).map Prod.snd

/-- `_mouseDown` from the source. -/
def mouseDown (s : TraceState) : TraceState :=
  { s with dragging := true, dragMoved := false }

/-- `_mouseMove` from the source.  `hit` is the hit-test result computed at the
event point; state is only updated in the dragging branch (the non-dragging
`setState` is commented out in the source; the tooltip DOM node is mutated
directly, outside the component state). -/
def mouseMove (s : TraceState) (ext : Extents) (hit : Option RenderableMeasure)
    (movementX : ℚ) : TraceState :=
  if s.dragging then
    { s with center := clampCenter ext (s.center - movementX / PX_PER_MS / s.zoom)
             hovered := hit
             dragMoved := true }
  else s

/-- `_mouseUp` from the source: stop dragging; when the drag never moved,
select the hit-test result at the release point, otherwise keep the selection. -/
def mouseUp (s : TraceState) (shapes : List (Layout × RenderableMeasure))
    (mouseX mouseY : ℚ) : TraceState :=
  { s with dragging := false
           dragMoved := false
           selection := if !s.dragMoved then hitTest shapes mouseX mouseY else s.selection }

/-- `_handleWheel` from the source: zoom centered on the mouse; state changes
only when the clamped candidate zoom differs from the current zoom. -/
def handleWheel (s : TraceState) (ext : Extents)
    (viewportWidth canvasMouseX deltaY : ℚ) : TraceState :=
  let mouseOffsetFromCenter := canvasMouseX - viewportWidth / 2
  let updatedZoom := s.zoom * (1 + 5 / 1000 * (-deltaY))
  let updatedCenter := s.center
      + mouseOffsetFromCenter / PX_PER_MS / s.zoom
      - mouseOffsetFromCenter / PX_PER_MS / updatedZoom
  if clampZoom updatedZoom ≠ s.zoom then
    { s with zoom := clampZoom updatedZoom, center := clampCenter ext updatedCenter }
  else s

/-- `_handleKey` from the source: w/s double or halve the zoom through the
clamp, a/d nudge the center by 5% of the extents size over zoom, through the
clamp. -/
def handleKey (s : TraceState) (ext : Extents) (key : Char) : TraceState :=
  if key = 'w' then { s with zoom := clampZoom (s.zoom * 2) }
  else if key = 'a' then
    { s with center := clampCenter ext (s.center - 5 / 100 * ext.size / s.zoom) }
  else if key = 's' then { s with zoom := clampZoom (s.zoom / 2) }
  else if key = 'd' then
    { s with center := clampCenter ext (s.center + 5 / 100 * ext.size / s.zoom) }
  else s

/-- `_handleStateChange` of `Trace.js`: requested zoom and center changes pass
through the clamps (zoom through the extents-derived minimum bound). -/
def handleStateChange (s : TraceState) (ext : Extents) (viewportWidth : ℚ)
    (zoomChange centerChange : Option ℚ) : TraceState :=
  { s with
    zoom := match zoomChange with
      | some z => clampZoomTrace (getMinZoom viewportWidth ext.size) z
      | none => s.zoom
    center := match centerChange with
      | some c => clampCenter ext c
      | none => s.center }

/-- `_getLayout` from the source: project one renderable measure to screen
space under the given viewport state. -/
def getLayout (center zoom viewportWidth : ℚ) (m : RenderableMeasure) : Layout :=
  let width := max (m.measure.duration * PX_PER_MS * zoom - BAR_X_GUTTER) 0
  let x := (m.measure.startTime - center) * PX_PER_MS * zoom + viewportWidth / 2
  let y := (m.stackIndex : ℚ) * (BAR_HEIGHT + BAR_Y_GUTTER)
  { width := width
    height := BAR_HEIGHT
    x := x
    y := y
    inView := !(decide (x + width < 0) || decide (viewportWidth < x)) }

/-- Modelled from the spec: `pixelToTime` (spec §4.2), the inverse of the
time-to-pixel transform embedded in `_getLayout`'s `x`; used to state the
zoom-invariant-pointer property. -/
def pixelToTime (px viewportWidth center zoom : ℚ) : ℚ :=
  (px - viewportWidth / 2) / zoom + center

/-! Helper lemmas. -/

/-- Unfolding equation for `handleWheel`. -/
theorem handleWheel_eq (s : TraceState) (ext : Extents)
    (viewportWidth canvasMouseX deltaY : ℚ) :
    handleWheel s ext viewportWidth canvasMouseX deltaY
      = if clampZoom (s.zoom * (1 + 5 / 1000 * (-deltaY))) ≠ s.zoom then
          { s with zoom := clampZoom (s.zoom * (1 + 5 / 1000 * (-deltaY)))
                   center := clampCenter ext
                     (s.center + (canvasMouseX - viewportWidth / 2) / PX_PER_MS / s.zoom
                       - (canvasMouseX - viewportWidth / 2) / PX_PER_MS
                           / (s.zoom * (1 + 5 / 1000 * (-deltaY)))) }
        else s := rfl

/-- Clamping to `[lo, hi]` by `max lo (min hi z)` is idempotent, for any
relative order of `lo` and `hi`. -/
theorem clamp_idem (lo hi z : ℚ) :
    max lo (min hi (max lo (min hi z))) = max lo (min hi z) := by
  rcases le_total lo (min hi z) with h | h
  · rw [max_eq_right h, ← min_assoc, min_self, max_eq_right h]
  · rw [max_eq_left h, max_eq_left (min_le_right hi lo)]

/-- The clamped zoom always lands in `[MIN_ZOOM, MAX_ZOOM]`. -/
theorem clampZoom_mem (z : ℚ) : MIN_ZOOM ≤ clampZoom z ∧ clampZoom z ≤ MAX_ZOOM := by
  refine ⟨le_max_left _ _, max_le ?_ (min_le_left _ _)⟩
  rw [MIN_ZOOM, MAX_ZOOM]; norm_num

/-- The clamped center lands in `[startOffset, endOffset]` whenever those
bounds are ordered. -/
theorem clampCenter_mem (ext : Extents) (c : ℚ) (h : ext.startOffset ≤ ext.endOffset) :
    ext.startOffset ≤ clampCenter ext c ∧ clampCenter ext c ≤ ext.endOffset :=
  ⟨le_max_left _ _, max_le h (min_le_left _ _)⟩

/-- Lane assignment decorates each measure with a lane and keeps the measure
sequence itself unchanged. -/
theorem assignLanes_map (l : List Measure) :
    ∀ lanes, (assignLanes l lanes).map RenderableMeasure.measure = l := by
  induction l with
  | nil => intro lanes; rfl
  | cons m rest ih =>
    intro lanes
    unfold assignLanes
    cases findFreeLane lanes m.startTime <;> simp [ih]

/-- The sort order of the layout engine is compatible with start times. -/
theorem measureOrder_start_le {a b : Measure} (h : measureOrder a b) :
    a.startTime ≤ b.startTime := by
  rcases h with h | ⟨h, _⟩
  · exact le_of_lt h
  · exact le_of_eq h

/-! Claim theorems. -/

/-- Claim C1 (refuted by the code, which contradicts the spec's stated intent):
the extents computation should either return a record or propagate an explicit
empty signal instead of indexing element 0 of an empty sequence.  The code
indexes `renderableTrace[0].measure` unconditionally: on the empty trace the
layout is empty, `_getExtents` dereferences a missing element (modelled by
`none`), and the component constructor — which calls `_getExtents` before any
render-time emptiness check — crashes as well. -/
theorem c1_extents_crash_on_empty_trace :
    transformTrace [] = [] ∧
    getExtents (transformTrace []) = none ∧
    mkInitialState [] 1000 none none = none :=
  ⟨rfl, rfl, rfl⟩

/-- Claim C2 (refuted by the code, which contradicts the spec's stated intent):
the zoom clamp should guard the division `viewportWidth / size` and fall back
to a safe default.  It does not: a trace consisting of a single zero-duration
measure has extents size 0, `_getMinZoom` divides by it yielding Infinity in
JS semantics, and `_clampZoom` then returns Infinity for every input — in
particular it can never return a finite zoom, so Infinity reaches the viewport
state's zoom field. -/
theorem c2_zoom_clamp_propagates_infinity :
    getExtents (transformTrace [⟨"a", 10, 0⟩]) = some ⟨10, 10, 0⟩ ∧
    clampZoomTraceJS 800 0 (.fin 1) = .posInf ∧
    (∀ (z : JSNum) (q : ℚ), clampZoomTraceJS 800 0 z ≠ .fin q) := by
  refine ⟨?_, ?_, ?_⟩
  · norm_num [transformTrace, assignLanes, findFreeLane, getExtents,
      List.insertionSort, List.orderedInsert]
  · norm_num [clampZoomTraceJS, clampZoomJS, getMinZoomJS, jsDiv, jsMax, jsMin, MAX_ZOOM]
  · intro z q
    cases z <;>
        norm_num [clampZoomTraceJS, clampZoomJS, getMinZoomJS, jsDiv, jsMax, jsMin, MAX_ZOOM] <;>
      exact fun hcl => JSNum.noConfusion hcl

/-- Claim C3 (confirmed): the zoom clamp is idempotent, both in the
constant-bounds form of the handlers and in the `Trace.js` form whose minimum
bound is an arbitrary JS number (possibly Infinity or NaN when the extents
size is 0). -/
theorem c3_clampZoom_idempotent :
    (∀ z : ℚ, clampZoom (clampZoom z) = clampZoom z) ∧
    (∀ minZoom z : JSNum, clampZoomJS minZoom (clampZoomJS minZoom z) = clampZoomJS minZoom z) := by
  constructor
  · intro z
    simp only [clampZoom]
    exact clamp_idem MIN_ZOOM MAX_ZOOM z
  · intro minZoom z
    cases minZoom <;> cases z <;>
      first
        | rfl
        | (show JSNum.fin _ = JSNum.fin _
           refine congrArg JSNum.fin ?_)
    case fin.fin a b => exact clamp_idem a 100 b
    case fin.posInf a => simp
    case fin.negInf a => exact max_eq_left (min_le_right 100 a)
    case negInf.fin b => rw [← min_assoc, min_self]

/-- Claim C4, counterexample: a wheel event whose candidate zoom is clamped
(current zoom 50, candidate 150 clamped to `MAX_ZOOM` 100) moves the time
value under the pointer, because the new center was computed from the
unclamped candidate zoom. -/
theorem c4_counterexample :
    pixelToTime 800 1000
        (handleWheel ⟨5000, false, false, none, none, 50⟩ ⟨0, 10000, 10000⟩ 1000 800 (-400)).center
        (handleWheel ⟨5000, false, false, none, none, 50⟩ ⟨0, 10000, 10000⟩ 1000 800 (-400)).zoom ≠
      pixelToTime 800 1000 (5000 : ℚ) 50 := by
  norm_num [handleWheel, clampZoom, clampCenter, pixelToTime, PX_PER_MS, MIN_ZOOM, MAX_ZOOM,
    max_def, min_def]

/-- Claim C4 (amended): when neither clamp alters the candidate values — the
candidate zoom is within the zoom bounds and the candidate center within the
extents — the wheel handler leaves the time value under the pointer exactly
unchanged (the source computes `newCenter = center + Δpx/zoom - Δpx/newZoom`
from the candidate `newZoom`). -/
theorem c4_wheel_zoom_pointer_invariant (s : TraceState) (ext : Extents)
    (viewportWidth canvasMouseX deltaY : ℚ)
    (hz : s.zoom ≠ 0)
    (huz : clampZoom (s.zoom * (1 + 5 / 1000 * (-deltaY))) = s.zoom * (1 + 5 / 1000 * (-deltaY)))
    (hc : clampCenter ext
            (s.center + (canvasMouseX - viewportWidth / 2) / PX_PER_MS / s.zoom
              - (canvasMouseX - viewportWidth / 2) / PX_PER_MS
                  / (s.zoom * (1 + 5 / 1000 * (-deltaY))))
          = s.center + (canvasMouseX - viewportWidth / 2) / PX_PER_MS / s.zoom
              - (canvasMouseX - viewportWidth / 2) / PX_PER_MS
                  / (s.zoom * (1 + 5 / 1000 * (-deltaY)))) :
    pixelToTime canvasMouseX viewportWidth
        (handleWheel s ext viewportWidth canvasMouseX deltaY).center
        (handleWheel s ext viewportWidth canvasMouseX deltaY).zoom
      = pixelToTime canvasMouseX viewportWidth s.center s.zoom := by
  rw [handleWheel_eq]
  by_cases hcond : clampZoom (s.zoom * (1 + 5 / 1000 * (-deltaY))) ≠ s.zoom
  · rw [if_pos hcond]
    simp only [huz, hc]
    simp only [pixelToTime, PX_PER_MS]
    ring
  · rw [if_neg hcond]

/-- Witness for C4 (amended): current zoom 50, candidate zoom 100 (within
bounds), candidate center 5003 (within extents); the pointer time is
invariant. -/
theorem c4_wheel_zoom_pointer_invariant_witness :
    (⟨5000, false, false, none, none, 50⟩ : TraceState).zoom ≠ 0 ∧
    pixelToTime 800 1000
        (handleWheel ⟨5000, false, false, none, none, 50⟩ ⟨0, 10000, 10000⟩ 1000 800 (-200)).center
        (handleWheel ⟨5000, false, false, none, none, 50⟩ ⟨0, 10000, 10000⟩ 1000 800 (-200)).zoom
      = pixelToTime 800 1000 (⟨5000, false, false, none, none, 50⟩ : TraceState).center
          (⟨5000, false, false, none, none, 50⟩ : TraceState).zoom := by
  refine ⟨by norm_num, ?_⟩
  apply c4_wheel_zoom_pointer_invariant
  · norm_num
  · show clampZoom ((50 : ℚ) * (1 + 5 / 1000 * (-(-200))))
        = (50 : ℚ) * (1 + 5 / 1000 * (-(-200)))
    rw [clampZoom, MIN_ZOOM, MAX_ZOOM]
    norm_num
  · show clampCenter ⟨0, 10000, 10000⟩
          ((5000 : ℚ) + (800 - 1000 / 2) / PX_PER_MS / 50
            - (800 - 1000 / 2) / PX_PER_MS / (50 * (1 + 5 / 1000 * (-(-200)))))
        = (5000 : ℚ) + (800 - 1000 / 2) / PX_PER_MS / 50
            - (800 - 1000 / 2) / PX_PER_MS / (50 * (1 + 5 / 1000 * (-(-200))))
    rw [clampCenter, PX_PER_MS]
    norm_num [max_def, min_def]

/-- Claim C5 (confirmed): the projected layout satisfies the stated width, x
and y formulas, its visibility flag is the stated horizontal test, and the
width is never negative. -/
theorem c5_layout_formulas (center zoom viewportWidth : ℚ) (m : RenderableMeasure) :
    (getLayout center zoom viewportWidth m).width
        = max (m.measure.duration * zoom - BAR_X_GUTTER) 0 ∧
    (getLayout center zoom viewportWidth m).x
        = (m.measure.startTime - center) * zoom + viewportWidth / 2 ∧
    (getLayout center zoom viewportWidth m).y
        = (m.stackIndex : ℚ) * (BAR_HEIGHT + BAR_Y_GUTTER) ∧
    ((getLayout center zoom viewportWidth m).inView = true ↔
      ¬((getLayout center zoom viewportWidth m).x + (getLayout center zoom viewportWidth m).width < 0 ∨
        viewportWidth < (getLayout center zoom viewportWidth m).x)) ∧
    0 ≤ (getLayout center zoom viewportWidth m).width := by
  refine ⟨?_, ?_, ?_, ?_, ?_⟩
  · simp [getLayout, PX_PER_MS]
  · simp [getLayout, PX_PER_MS]
  · simp [getLayout]
  · simp [getLayout, not_or]
  · exact le_max_right _ _

/-- Claim C6 (confirmed): on pointer-up, when the drag never moved the
selection becomes the hit-test result at the release point, otherwise the
selection is unchanged; dragging always ends. -/
theorem c6_mouseUp_click_selects_drag_preserves (s : TraceState)
    (shapes : List (Layout × RenderableMeasure)) (mouseX mouseY : ℚ) :
    (mouseUp s shapes mouseX mouseY).selection
        = (if s.dragMoved then s.selection else hitTest shapes mouseX mouseY) ∧
    (mouseUp s shapes mouseX mouseY).dragging = false := by
  cases h : s.dragMoved <;> simp [mouseUp, h]

/-- Claim C7, counterexample: a pointer-move in a non-dragging state whose
hit-test returns a measure leaves the component state — in particular the
`hovered` field — completely unchanged, contradicting the claim that every
non-dragging pointer-move stores the hit-test result in `hovered`. -/
theorem c7_counterexample :
    hitTest [(⟨10, 16, 0, 0, true⟩, ⟨⟨"m", 0, 5⟩, 0⟩)] 5 5 = some ⟨⟨"m", 0, 5⟩, 0⟩ ∧
    mouseMove ⟨0, false, false, none, none, 1⟩ ⟨0, 100, 100⟩
        (hitTest [(⟨10, 16, 0, 0, true⟩, ⟨⟨"m", 0, 5⟩, 0⟩)] 5 5) 0
      = ⟨0, false, false, none, none, 1⟩ ∧
    (⟨0, false, false, none, none, 1⟩ : TraceState).hovered = none := by
  refine ⟨?_, ?_, rfl⟩
  · norm_num [hitTest, List.find?]
  · rfl

/-- Claim C7 (amended): the hit-test result reaches the `hovered` state field
only while dragging (the non-dragging state commit is commented out in the
source; only the tooltip DOM node is updated directly); pointer-move never
changes the selection. -/
theorem c7_hover_updates_only_while_dragging (s : TraceState) (ext : Extents)
    (hit : Option RenderableMeasure) (movementX : ℚ) :
    (mouseMove s ext hit movementX).hovered
        = (if s.dragging then hit else s.hovered) ∧
    (mouseMove s ext hit movementX).selection = s.selection := by
  cases h : s.dragging <;> simp [mouseMove, h]

/-- Claim C8, counterexample: the initial state is built from the stored zoom
without clamping — a persisted zoom of 1000 becomes the observable state's
zoom even though it exceeds `MAX_ZOOM = 100`. -/
theorem c8_counterexample :
    (mkInitialState [⟨"a", 0, 50⟩] 800 (some 1000) none).map TraceState.zoom = some 1000 ∧
    MAX_ZOOM = 100 ∧ (100 : ℚ) < 1000 := by
  refine ⟨?_, rfl, by norm_num⟩
  norm_num [mkInitialState, transformTrace, assignLanes, findFreeLane, getExtents,
    List.insertionSort, List.orderedInsert, loadValue]

/-- Claim C8 (amended): every event-handler path that sets zoom or center
passes the value through the corresponding clamp, so the written zoom lies in
`[MIN_ZOOM, MAX_ZOOM]` (for `_handleStateChange`, in `[minZoom, MAX_ZOOM]`
when `minZoom ≤ MAX_ZOOM`) and the written center lies in
`[startOffset, endOffset]` when those bounds are ordered; but the initial
state from storage or defaults is not clamped. -/
theorem c8_event_handlers_clamp (s : TraceState) (ext : Extents)
    (viewportWidth canvasMouseX deltaY movementX : ℚ) (key : Char)
    (hit : Option RenderableMeasure) (zoomChange centerChange : Option ℚ)
    (hse : ext.startOffset ≤ ext.endOffset)
    (hmz : getMinZoom viewportWidth ext.size ≤ MAX_ZOOM) :
    ((handleWheel s ext viewportWidth canvasMouseX deltaY).zoom = s.zoom ∨
      (MIN_ZOOM ≤ (handleWheel s ext viewportWidth canvasMouseX deltaY).zoom ∧
        (handleWheel s ext viewportWidth canvasMouseX deltaY).zoom ≤ MAX_ZOOM)) ∧
    ((handleWheel s ext viewportWidth canvasMouseX deltaY).center = s.center ∨
      (ext.startOffset ≤ (handleWheel s ext viewportWidth canvasMouseX deltaY).center ∧
        (handleWheel s ext viewportWidth canvasMouseX deltaY).center ≤ ext.endOffset)) ∧
    ((handleKey s ext key).zoom = s.zoom ∨
      (MIN_ZOOM ≤ (handleKey s ext key).zoom ∧ (handleKey s ext key).zoom ≤ MAX_ZOOM)) ∧
    ((handleKey s ext key).center = s.center ∨
      (ext.startOffset ≤ (handleKey s ext key).center ∧
        (handleKey s ext key).center ≤ ext.endOffset)) ∧
    (mouseMove s ext hit movementX).zoom = s.zoom ∧
    ((mouseMove s ext hit movementX).center = s.center ∨
      (ext.startOffset ≤ (mouseMove s ext hit movementX).center ∧
        (mouseMove s ext hit movementX).center ≤ ext.endOffset)) ∧
    ((handleStateChange s ext viewportWidth zoomChange centerChange).zoom = s.zoom ∨
      (getMinZoom viewportWidth ext.size
          ≤ (handleStateChange s ext viewportWidth zoomChange centerChange).zoom ∧
        (handleStateChange s ext viewportWidth zoomChange centerChange).zoom ≤ MAX_ZOOM)) ∧
    ((handleStateChange s ext viewportWidth zoomChange centerChange).center = s.center ∨
      (ext.startOffset ≤ (handleStateChange s ext viewportWidth zoomChange centerChange).center ∧
        (handleStateChange s ext viewportWidth zoomChange centerChange).center ≤ ext.endOffset)) := by
  refine ⟨?_, ?_, ?_, ?_, ?_, ?_, ?_, ?_⟩
  · rw [handleWheel_eq]
    by_cases hcond : clampZoom (s.zoom * (1 + 5 / 1000 * (-deltaY))) ≠ s.zoom
    · rw [if_pos hcond]; exact Or.inr (clampZoom_mem _)
    · rw [if_neg hcond]; exact Or.inl rfl
  · rw [handleWheel_eq]
    by_cases hcond : clampZoom (s.zoom * (1 + 5 / 1000 * (-deltaY))) ≠ s.zoom
    · rw [if_pos hcond]; exact Or.inr (clampCenter_mem ext _ hse)
    · rw [if_neg hcond]; exact Or.inl rfl
  · rw [handleKey]
    split_ifs
    · exact Or.inr (clampZoom_mem _)
    · exact Or.inl rfl
    · exact Or.inr (clampZoom_mem _)
    · exact Or.inl rfl
    · exact Or.inl rfl
  · rw [handleKey]
    split_ifs
    · exact Or.inl rfl
    · exact Or.inr (clampCenter_mem ext _ hse)
    · exact Or.inl rfl
    · exact Or.inr (clampCenter_mem ext _ hse)
    · exact Or.inl rfl
  · rw [mouseMove]
    split_ifs <;> rfl
  · rw [mouseMove]
    split_ifs with hd
    · exact Or.inr (clampCenter_mem ext _ hse)
    · exact Or.inl rfl
  · cases zoomChange with
    | none => exact Or.inl rfl
    | some z =>
      exact Or.inr ⟨le_max_left _ _, max_le hmz (min_le_left _ _)⟩
  · cases centerChange with
    | none => exact Or.inl rfl
    | some c => exact Or.inr (clampCenter_mem ext _ hse)

/-- Witness for C8 (amended): concrete ordered extents and a minimum zoom
below `MAX_ZOOM`; the wheel handler's written zoom is bounded or unchanged. -/
theorem c8_event_handlers_clamp_witness :
    (handleWheel ⟨10, false, false, none, none, 1⟩ ⟨0, 100, 100⟩ 800 400 (-100)).zoom
        = (⟨10, false, false, none, none, 1⟩ : TraceState).zoom ∨
      (MIN_ZOOM ≤ (handleWheel ⟨10, false, false, none, none, 1⟩ ⟨0, 100, 100⟩ 800 400 (-100)).zoom ∧
        (handleWheel ⟨10, false, false, none, none, 1⟩ ⟨0, 100, 100⟩ 800 400 (-100)).zoom ≤ MAX_ZOOM) :=
  (c8_event_handlers_clamp ⟨10, false, false, none, none, 1⟩ ⟨0, 100, 100⟩ 800 400 (-100) 0
    'w' none none none (by norm_num) (by norm_num [getMinZoom, MAX_ZOOM])).1

/-- Claim C9, counterexample: on the spec's own three-measure scenario
(A start 0 duration 10, B start 2 duration 3, C start 6 duration 2) the
extents computation returns endOffset 8 — the end time of the last
start-sorted element C — while element A of the trace ends at 10 > 8, so the
endOffset is not the maximum end time over the entire trace. -/
theorem c9_counterexample :
    getExtents (transformTrace [⟨"A", 0, 10⟩, ⟨"B", 2, 3⟩, ⟨"C", 6, 2⟩]) = some ⟨0, 8, 8⟩ ∧
    (⟨"A", 0, 10⟩ : Measure) ∈ ([⟨"A", 0, 10⟩, ⟨"B", 2, 3⟩, ⟨"C", 6, 2⟩] : List Measure) ∧
    (⟨"A", 0, 10⟩ : Measure).startTime + (⟨"A", 0, 10⟩ : Measure).duration = 10 ∧
    (8 : ℚ) < 10 := by
  refine ⟨?_, by norm_num, by norm_num, by norm_num⟩
  norm_num [transformTrace, assignLanes, findFreeLane, getExtents,
    List.insertionSort, List.orderedInsert, measureOrder]

/-- Claim C9 (amended): for a nonempty trace the extents computation returns a
record derived from the first and last elements of the start-sorted layout
output; its startOffset is the minimum start time over the whole trace
(attained by some element), and its endOffset is the end time of some element
of the trace (the last in start order) — but not necessarily the maximum end
time. -/
theorem c9_extents_first_and_last (t : List Measure) (h : t ≠ []) :
    ∃ ext, getExtents (transformTrace t) = some ext ∧
      (∀ m ∈ t, ext.startOffset ≤ m.startTime) ∧
      (∃ m ∈ t, m.startTime = ext.startOffset) ∧
      (∃ m ∈ t, m.startTime + m.duration = ext.endOffset) := by
  obtain ⟨b, L₂, hL⟩ : ∃ b L₂, List.insertionSort measureOrder t = b :: L₂ := by
    cases hS : List.insertionSort measureOrder t with
    | nil =>
      exfalso
      exact h (List.Perm.eq_nil ((hS ▸ (List.perm_insertionSort measureOrder t)).symm))
    | cons b L₂ => exact ⟨b, L₂, rfl⟩
  have hmem : ∀ m : Measure, m ∈ t ↔ m ∈ b :: L₂ := by
    intro m
    rw [← hL]
    exact (List.perm_insertionSort measureOrder t).mem_iff.symm
  have hsorted : List.Sorted measureOrder (b :: L₂) := by
    rw [← hL]; exact List.sorted_insertionSort measureOrder t
  have hA : transformTrace t = assignLanes (b :: L₂) [] := by
    rw [transformTrace, hL]
  have hAm : (assignLanes (b :: L₂) []).map RenderableMeasure.measure = b :: L₂ :=
    assignLanes_map _ _
  have hAne : assignLanes (b :: L₂) [] ≠ [] := by
    intro h0
    rw [h0] at hAm
    exact List.cons_ne_nil b L₂ hAm.symm
  obtain ⟨a, A₂, hAeq⟩ := List.exists_cons_of_ne_nil hAne
  have hhead : a.measure = b := by
    have := congrArg List.head? hAm
    rw [hAeq] at this
    simpa using this
  have hlast_mem : (a :: A₂).getLast (List.cons_ne_nil a A₂) ∈ a :: A₂ := List.getLast_mem _
  have hlast_meas_mem : ((a :: A₂).getLast (List.cons_ne_nil a A₂)).measure ∈ b :: L₂ := by
    rw [← hAm, hAeq]
    exact List.mem_map_of_mem RenderableMeasure.measure hlast_mem
  refine ⟨⟨b.startTime,
          ((a :: A₂).getLast (List.cons_ne_nil a A₂)).measure.startTime +
            ((a :: A₂).getLast (List.cons_ne_nil a A₂)).measure.duration,
          ((a :: A₂).getLast (List.cons_ne_nil a A₂)).measure.startTime +
            ((a :: A₂).getLast (List.cons_ne_nil a A₂)).measure.duration - b.startTime⟩,
      ?_, ?_, ?_, ?_⟩
  · rw [hA, hAeq, getExtents]
    simp [List.getLast?_eq_getLast, hhead]
  · intro m hm
    rcases List.mem_cons.1 ((hmem m).1 hm) with hm' | hm'
    · rw [hm']
    · exact measureOrder_start_le (List.rel_of_sorted_cons hsorted m hm')
  · exact ⟨b, (hmem b).2 (List.mem_cons_self b L₂), rfl⟩
  · exact ⟨((a :: A₂).getLast (List.cons_ne_nil a A₂)).measure,
      (hmem _).2 hlast_meas_mem, rfl⟩

/-- Witness for C9 (amended), at the one-measure trace. -/
theorem c9_extents_first_and_last_witness :
    ([⟨"A", 0, 10⟩] : List Measure) ≠ [] ∧
    ∃ ext, getExtents (transformTrace ([⟨"A", 0, 10⟩] : List Measure)) = some ext ∧
      (∀ m ∈ ([⟨"A", 0, 10⟩] : List Measure), ext.startOffset ≤ m.startTime) ∧
      (∃ m ∈ ([⟨"A", 0, 10⟩] : List Measure), m.startTime = ext.startOffset) ∧
      (∃ m ∈ ([⟨"A", 0, 10⟩] : List Measure), m.startTime + m.duration = ext.endOffset) :=
  ⟨by simp, c9_extents_first_and_last _ (by simp)⟩

/-- Claim C10 (confirmed): when the clamped candidate zoom equals the current
zoom, the wheel handler changes no state at all — in particular the center is
untouched. -/
theorem c10_wheel_noop_at_zoom_limit (s : TraceState) (ext : Extents)
    (viewportWidth canvasMouseX deltaY : ℚ)
    (h : clampZoom (s.zoom * (1 + 5 / 1000 * (-deltaY))) = s.zoom) :
    handleWheel s ext viewportWidth canvasMouseX deltaY = s := by
  rw [handleWheel_eq, if_neg (not_not_intro h)]

/-- Witness for C10: zoom pinned at `MAX_ZOOM = 100`; a further zoom-in wheel
event leaves the entire state unchanged. -/
theorem c10_wheel_noop_at_zoom_limit_witness :
    clampZoom ((100 : ℚ) * (1 + 5 / 1000 * (-(-400)))) = 100 ∧
    handleWheel ⟨5000, false, false, none, none, 100⟩ ⟨0, 10000, 10000⟩ 1000 800 (-400)
      = ⟨5000, false, false, none, none, 100⟩ := by
  have h : clampZoom ((100 : ℚ) * (1 + 5 / 1000 * (-(-400)))) = 100 := by
    rw [clampZoom, MIN_ZOOM, MAX_ZOOM]
    norm_num
  exact ⟨h, c10_wheel_noop_at_zoom_limit _ _ _ _ _ h⟩

end Flamechart
